import Mathlib

/-!
Shallow embedding of `proto.py` (Lab Assistant Pro), a Streamlit application
backed by an SQLite store with five tables (users, tasks, reagents,
experiments, buffers).  Rows are embedded as structures, tables as lists in
insertion order, AUTOINCREMENT ids as explicit counters threaded through the
store.  Text dates (`YYYY-MM-DD`) are embedded as their proleptic Gregorian
day number (the value of Python's `date.toordinal`); note that lexicographic
order on the text form agrees with the numeric order of the ordinals, so the
SQL `ORDER BY` and `>=` comparisons on date columns are faithfully rendered
as integer comparisons.  SQLite REAL values reaching the claims are embedded
as rationals.  The SHA-256 digest is embedded as an abstract parameter
`hash : String → String`: the code only ever compares digests for equality.
-/

namespace Proto

/-- Row of the `users` table (`initialize_db`): id, unique username, stored
password digest, email, full name, registration timestamp text. -/
structure UserRow where
  id : Nat
  username : String
  password : String
  email : String
  full_name : String
  registration_date : String
deriving DecidableEq

/-- Row of the `tasks` table: `completed` is the INTEGER 0/1 column rendered
as `Bool` (DEFAULT 0), `due_date` the ordinal of the date text. -/
structure TaskRow where
  id : Nat
  user_id : Nat
  title : String
  description : String
  due_date : Int
  frequency : String
  completed : Bool
deriving DecidableEq

/-- Row of the `reagents` table; `expiry_date` is nullable in the code
(`None` is inserted when no date is supplied). -/
structure ReagentRow where
  id : Nat
  user_id : Nat
  name : String
  quantity : ℚ
  unit : String
  location : String
  supplier : String
  catalog_number : String
  date_added : String
  expiry_date : Option String
  notes : String
deriving DecidableEq

/-- Row of the `experiments` table; the serialized list columns are kept as
their encoded text, which none of the claims inspect. -/
structure ExperimentRow where
  id : Nat
  user_id : Nat
  title : String
  aim : String
  date : String
  reagents : String
  procedure : String
  observations : String
  notes : String
  results : String
deriving DecidableEq

/-- Row of the `buffers` table. -/
structure BufferRow where
  id : Nat
  user_id : Nat
  name : String
  ph : ℚ
  components : String
  preparation : String
deriving DecidableEq

/-- The whole SQLite store: five tables plus the AUTOINCREMENT counters. -/
structure DB where
  users : List UserRow
  tasks : List TaskRow
  reagents : List ReagentRow
  experiments : List ExperimentRow
  buffers : List BufferRow
  next_user_id : Nat
  next_task_id : Nat
  next_reagent_id : Nat
  next_experiment_id : Nat
  next_buffer_id : Nat
deriving DecidableEq

/-- The store right after `initialize_db` on a fresh file: empty tables,
AUTOINCREMENT counters starting at 1. -/
def emptyDB : DB :=
  { users := [], tasks := [], reagents := [], experiments := [], buffers := []
    next_user_id := 1, next_task_id := 1, next_reagent_id := 1
    next_experiment_id := 1, next_buffer_id := 1 }

/-- Insertion sort step for the embedding of SQL `ORDER BY`. -/
def insBy {α : Type} (le : α → α → Bool) (a : α) : List α → List α
  | [] => [a]
  | b :: bs => if le a b then a :: b :: bs else b :: insBy le a bs

/-- Insertion sort, the embedding of SQL `ORDER BY key`. -/
def sortBy {α : Type} (le : α → α → Bool) : List α → List α
  | [] => []
  | a :: as => insBy le a (sortBy le as)

theorem mem_insBy {α : Type} (le : α → α → Bool) (a x : α) (l : List α) :
    x ∈ insBy le a l ↔ x = a ∨ x ∈ l := by
  induction l with
  | nil => simp [insBy]
  | cons b bs ih =>
    by_cases h : le a b = true
    · simp [insBy, h, List.mem_cons]
    · simp only [insBy, h, if_neg, Bool.not_eq_true, List.mem_cons, ih]
      tauto

theorem mem_sortBy {α : Type} (le : α → α → Bool) (x : α) (l : List α) :
    x ∈ sortBy le l ↔ x ∈ l := by
  induction l with
  | nil => simp [sortBy]
  | cons a as ih => simp [sortBy, mem_insBy, ih, List.mem_cons]

/-! ## Credential store (`create_user`, `verify_user`, register form) -/

/-- Embedding of `create_user` (proto.py:132).  The INSERT hits the UNIQUE
constraint on `username` exactly when a row with a byte-identical username is
already present (SQLite TEXT UNIQUE uses the case-sensitive BINARY
collation); the exception handler then returns `False` and the store is
unchanged.  Otherwise the row is inserted with the password digest and the
function returns `True`. -/
def create_user (hash : String → String) (db : DB)
    (username password email full_name regdate : String) : DB × Bool :=
  if db.users.any (fun r => r.username == username) then
    (db, false)
  else
    ({ db with
        users := db.users ++
          [⟨db.next_user_id, username, hash password, email, full_name, regdate⟩]
        next_user_id := db.next_user_id + 1 },
     true)

/-- Embedding of `verify_user` (proto.py:152): recompute the digest and
fetch the first row matching both username and digest, returning its
`(id, username)` pair. -/
def verify_user (hash : String → String) (db : DB)
    (username password : String) : Option (Nat × String) :=
  (db.users.find? (fun r => r.username == username && r.password == hash password)).map
    (fun r => (r.id, r.username))

/-- Outcome rendered by the register form of `login_page` (proto.py:223):
which of the three `st.error` branches fired, or success. -/
inductive RegOutcome where
  | success
  | passwordMismatch
  | passwordTooShort
  | duplicateUsername
deriving DecidableEq

/-- Embedding of the register-form submission handler of `login_page`
(proto.py:223): password must equal its confirmation and have at least 6
characters before `create_user` is ever called; only then may a row be
inserted. -/
def registerSubmit (hash : String → String) (db : DB)
    (username password confirm email full_name regdate : String) :
    DB × RegOutcome :=
  if password ≠ confirm then
    (db, RegOutcome.passwordMismatch)
  else if password.length < 6 then
    (db, RegOutcome.passwordTooShort)
  else
    match create_user hash db username password email full_name regdate with
    | (db1, true) => (db1, RegOutcome.success)
    | (_, false) => (db, RegOutcome.duplicateUsername)

/-! ## Claims C3, C4, C10 -/

/-- Claim C3: registering a fresh username and then authenticating with the
same password returns the stored identity, while authenticating that
username with any password whose digest differs returns nothing. -/
theorem register_then_authenticate (hash : String → String) (db : DB)
    (u p q e f d : String)
    (hfresh : ∀ r ∈ db.users, r.username ≠ u)
    (hdiff : hash q ≠ hash p) :
    (create_user hash db u p e f d).2 = true ∧
    verify_user hash (create_user hash db u p e f d).1 u p =
      some (db.next_user_id, u) ∧
    verify_user hash (create_user hash db u p e f d).1 u q = none := by
  have hany : db.users.any (fun r => r.username == u) = false := by
    rw [List.any_eq_false]
    intro r hr
    simpa using hfresh r hr
  have hfind : ∀ (pw : String),
      db.users.find? (fun r => r.username == u && r.password == hash pw) = none := by
    intro pw
    rw [List.find?_eq_none]
    intro r hr
    simp [hfresh r hr]
  constructor
  · simp [create_user, hany]
  constructor
  · simp only [create_user, hany, Bool.false_eq_true, if_false, verify_user,
      List.find?_append, hfind p, Option.none_orElse]
    simp [List.find?]
  · have hne : (hash p == hash q) = false :=
      beq_eq_false_iff_ne.mpr (Ne.symm hdiff)
    simp only [create_user, hany, Bool.false_eq_true, if_false, verify_user,
      List.find?_append, hfind q, Option.none_orElse]
    simp [List.find?, hne]

/-- Claim C3 witness at a concrete store and hash. -/
theorem register_then_authenticate_witness :
    (create_user (fun s => s ++ "#") emptyDB "ada" "secret1" "" "" "t").2 = true ∧
    verify_user (fun s => s ++ "#")
      (create_user (fun s => s ++ "#") emptyDB "ada" "secret1" "" "" "t").1
      "ada" "secret1" = some (1, "ada") ∧
    verify_user (fun s => s ++ "#")
      (create_user (fun s => s ++ "#") emptyDB "ada" "secret1" "" "" "t").1
      "ada" "secret2" = none :=
  register_then_authenticate (fun s => s ++ "#") emptyDB
    "ada" "secret1" "secret2" "" "" "t"
    (by intro r hr; simp [emptyDB] at hr) (by decide)

/-- Claim C4: registering a username case-sensitively equal to an existing
one fails (the UNIQUE violation makes `create_user` return `False`), the
store is unchanged, and the users table still holds exactly one row with
that username, the original one. -/
theorem duplicate_username_rejected (hash : String → String) (db : DB)
    (u p e f d : String)
    (hone : db.users.countP (fun r => r.username == u) = 1) :
    create_user hash db u p e f d = (db, false) ∧
    ((create_user hash db u p e f d).1.users.countP
      (fun r => r.username == u) = 1) := by
  have hex : db.users.any (fun r => r.username == u) = true := by
    rw [List.any_eq_true]
    have hpos : 0 < db.users.countP (fun r => r.username == u) := by omega
    rw [List.countP_pos_iff] at hpos
    exact hpos
  have h1 : create_user hash db u p e f d = (db, false) := by
    simp [create_user, hex]
  exact ⟨h1, by rw [h1]; exact hone⟩

/-- Claim C4 witness: a store holding exactly one user named ada rejects a
second registration of ada and keeps exactly that one row. -/
theorem duplicate_username_rejected_witness :
    create_user (fun s => s ++ "#")
      ⟨[⟨1, "ada", "secret1#", "", "", "t"⟩], [], [], [], [], 2, 1, 1, 1, 1⟩
      "ada" "other99" "" "" "t2" =
      (⟨[⟨1, "ada", "secret1#", "", "", "t"⟩], [], [], [], [], 2, 1, 1, 1, 1⟩,
        false) ∧
    ((create_user (fun s => s ++ "#")
      ⟨[⟨1, "ada", "secret1#", "", "", "t"⟩], [], [], [], [], 2, 1, 1, 1, 1⟩
      "ada" "other99" "" "" "t2").1.users.countP
        (fun r => r.username == "ada") = 1) :=
  duplicate_username_rejected (fun s => s ++ "#")
    ⟨[⟨1, "ada", "secret1#", "", "", "t"⟩], [], [], [], [], 2, 1, 1, 1, 1⟩
    "ada" "other99" "" "" "t2" (by decide)

/-- Claim C10: a registration whose password differs from its confirmation
or has fewer than 6 characters is rejected before `create_user` runs: the
store comes back unchanged (no user row is created) and the outcome is the
matching validation error, never success. -/
theorem registration_validation_gate (hash : String → String) (db : DB)
    (u p c e f d : String)
    (hbad : p ≠ c ∨ p.length < 6) :
    (registerSubmit hash db u p c e f d).1 = db ∧
    (registerSubmit hash db u p c e f d).2 ≠ RegOutcome.success := by
  by_cases hpc : p = c
  · subst hpc
    have hlen : p.length < 6 := by tauto
    simp [registerSubmit, hlen]
  · simp [registerSubmit, hpc]

/-- Claim C10 witness: a 3-character password equal to its confirmation is
rejected and leaves the store unchanged. -/
theorem registration_validation_gate_witness :
    (registerSubmit (fun s => s ++ "#") emptyDB "ada" "abc" "abc" "" "" "t").1 =
      emptyDB ∧
    (registerSubmit (fun s => s ++ "#") emptyDB "ada" "abc" "abc" "" "" "t").2 ≠
      RegOutcome.success :=
  registration_validation_gate (fun s => s ++ "#") emptyDB "ada" "abc" "abc"
    "" "" "t" (Or.inr (by decide))

/-! ## Entity repositories: inserts and list queries -/

/-- Embedding of the task INSERT of `lab_planner` (proto.py:652): the
`completed` column is left at its DEFAULT 0. -/
def addTask (db : DB) (uid : Nat) (title descr : String) (due : Int)
    (freq : String) : DB :=
  { db with
      tasks := db.tasks ++ [⟨db.next_task_id, uid, title, descr, due, freq, false⟩]
      next_task_id := db.next_task_id + 1 }

/-- Embedding of the reagent INSERT of `reagent_tracker` (proto.py:1049). -/
def addReagent (db : DB) (uid : Nat) (name : String) (quantity : ℚ)
    (unit location supplier catalog : String) (expiry : Option String)
    (notes date_added : String) : DB :=
  { db with
      reagents := db.reagents ++
        [⟨db.next_reagent_id, uid, name, quantity, unit, location, supplier,
          catalog, date_added, expiry, notes⟩]
      next_reagent_id := db.next_reagent_id + 1 }

/-- Embedding of the experiment INSERT of `protocol_generator`
(proto.py:864). -/
def addExperiment (db : DB) (uid : Nat)
    (title aim dt reag proc obs notes results : String) : DB :=
  { db with
      experiments := db.experiments ++
        [⟨db.next_experiment_id, uid, title, aim, dt, reag, proc, obs, notes,
          results⟩]
      next_experiment_id := db.next_experiment_id + 1 }

/-- Embedding of the buffer INSERT of `buffer_helper` (proto.py:524). -/
def addBuffer (db : DB) (uid : Nat) (name : String) (ph : ℚ)
    (comps prep : String) : DB :=
  { db with
      buffers := db.buffers ++
        [⟨db.next_buffer_id, uid, name, ph, comps, prep⟩]
      next_buffer_id := db.next_buffer_id + 1 }

/-- Embedding of the `get_tasks` helper of `lab_planner` (proto.py:612):
rows of the calling user, optionally restricted to one frequency; unless
`completed` is passed, only rows with `completed = 0`; ordered by due date.
The SELECT column list is the whole row here. -/
def get_tasks (db : DB) (uid : Nat) (frequency : Option String)
    (completed : Bool) : List TaskRow :=
  sortBy (fun a b => decide (a.due_date ≤ b.due_date))
    (db.tasks.filter (fun t =>
      t.user_id == uid &&
      (match frequency with | some f => t.frequency == f | none => true) &&
      (completed || !t.completed)))

/-- Embedding of the `get_reagents` helper of `reagent_tracker`
(proto.py:915): the calling user's rows ordered by name. -/
def get_reagents (db : DB) (uid : Nat) : List ReagentRow :=
  sortBy (fun a b => decide (a.name ≤ b.name))
    (db.reagents.filter (fun r => r.user_id == uid))

/-- Row set behind the upcoming-tasks dashboard query (proto.py:254):
`user_id = ?`, `completed = 0`, `due_date >= today OR frequency != 'once'`,
ordered by due date, first 5; the SELECT then projects title, description
and due date. -/
def upcomingTasksRows (db : DB) (uid : Nat) (today : Int) : List TaskRow :=
  (sortBy (fun a b => decide (a.due_date ≤ b.due_date))
    (db.tasks.filter (fun t =>
      t.user_id == uid && !t.completed &&
      (decide (today ≤ t.due_date) || t.frequency != "once")))).take 5

/-- Row set behind the recent-experiments dashboard query (proto.py:261):
the user's experiments by date descending, first 3. -/
def recentExperimentRows (db : DB) (uid : Nat) : List ExperimentRow :=
  (sortBy (fun a b => decide (b.date ≤ a.date))
    (db.experiments.filter (fun e => e.user_id == uid))).take 3

/-- Row set behind the low-reagents dashboard query (proto.py:268): the
user's reagents with `quantity < 10` by quantity ascending, first 3. -/
def lowReagentRows (db : DB) (uid : Nat) : List ReagentRow :=
  (sortBy (fun a b => decide (a.quantity ≤ b.quantity))
    (db.reagents.filter (fun r => r.user_id == uid && decide (r.quantity < 10)))).take 3

/-! ## Interleavings of create operations (claim C2) -/

/-- One create action, tagged with the session user who performs it. -/
inductive CreateOp where
  | task (uid : Nat) (title descr : String) (due : Int) (freq : String)
  | reagent (uid : Nat) (name : String) (q : ℚ)
      (unit location supplier catalog : String) (expiry : Option String)
      (notes dadd : String)
  | experiment (uid : Nat) (title aim dt reag proc obs notes results : String)
  | buffer (uid : Nat) (name : String) (ph : ℚ) (comps prep : String)
deriving DecidableEq

/-- The session user performing a create action. -/
def CreateOp.uid : CreateOp → Nat
  | .task u _ _ _ _ => u
  | .reagent u _ _ _ _ _ _ _ _ _ => u
  | .experiment u _ _ _ _ _ _ _ _ => u
  | .buffer u _ _ _ _ => u

/-- Apply one create action to the store. -/
def applyOp (db : DB) : CreateOp → DB
  | .task u t de du f => addTask db u t de du f
  | .reagent u n q un lo su ca ex no da => addReagent db u n q un lo su ca ex no da
  | .experiment u t a dt re pr ob no rs => addExperiment db u t a dt re pr ob no rs
  | .buffer u n ph co pr => addBuffer db u n ph co pr

/-- Apply a whole interleaving of create actions, oldest first. -/
def applyOps (ops : List CreateOp) (db : DB) : DB := ops.foldl applyOp db

theorem get_tasks_user_scoped (db : DB) (uid : Nat) (freq : Option String)
    (comp : Bool) (t : TaskRow) (ht : t ∈ get_tasks db uid freq comp) :
    t.user_id = uid := by
  rw [get_tasks, mem_sortBy, List.mem_filter] at ht
  have h := ht.2
  simp only [Bool.and_eq_true, beq_iff_eq] at h
  exact h.1.1

theorem get_reagents_user_scoped (db : DB) (uid : Nat) (r : ReagentRow)
    (hr : r ∈ get_reagents db uid) : r.user_id = uid := by
  rw [get_reagents, mem_sortBy, List.mem_filter] at hr
  simpa using hr.2

theorem upcomingTasksRows_user_scoped (db : DB) (uid : Nat) (today : Int)
    (t : TaskRow) (ht : t ∈ upcomingTasksRows db uid today) :
    t.user_id = uid := by
  rw [upcomingTasksRows] at ht
  replace ht := List.take_subset _ _ ht
  rw [mem_sortBy, List.mem_filter] at ht
  have h := ht.2
  simp only [Bool.and_eq_true, beq_iff_eq] at h
  exact h.1.1

theorem recentExperimentRows_user_scoped (db : DB) (uid : Nat)
    (e : ExperimentRow) (he : e ∈ recentExperimentRows db uid) :
    e.user_id = uid := by
  rw [recentExperimentRows] at he
  replace he := List.take_subset _ _ he
  rw [mem_sortBy, List.mem_filter] at he
  simpa using he.2

theorem lowReagentRows_user_scoped (db : DB) (uid : Nat) (r : ReagentRow)
    (hr : r ∈ lowReagentRows db uid) : r.user_id = uid := by
  rw [lowReagentRows] at hr
  replace hr := List.take_subset _ _ hr
  rw [mem_sortBy, List.mem_filter] at hr
  have h := hr.2
  simp only [Bool.and_eq_true, beq_iff_eq] at h
  exact h.1

/-- Claim C2: for any interleaving of create actions by users A and B,
every list or dashboard read query issued for A returns only rows whose
`user_id` is A, never a row of B. -/
theorem list_queries_cross_user_isolation (A B : Nat) (ops : List CreateOp)
    (hAB : A ≠ B)
    (_hops : ∀ op ∈ ops, CreateOp.uid op = A ∨ CreateOp.uid op = B)
    (freq : Option String) (comp : Bool) (today : Int) :
    (∀ t ∈ get_tasks (applyOps ops emptyDB) A freq comp,
      t.user_id = A ∧ t.user_id ≠ B) ∧
    (∀ r ∈ get_reagents (applyOps ops emptyDB) A,
      r.user_id = A ∧ r.user_id ≠ B) ∧
    (∀ t ∈ upcomingTasksRows (applyOps ops emptyDB) A today,
      t.user_id = A ∧ t.user_id ≠ B) ∧
    (∀ e ∈ recentExperimentRows (applyOps ops emptyDB) A,
      e.user_id = A ∧ e.user_id ≠ B) ∧
    (∀ r ∈ lowReagentRows (applyOps ops emptyDB) A,
      r.user_id = A ∧ r.user_id ≠ B) := by
  refine ⟨fun t ht => ?_, fun r hr => ?_, fun t ht => ?_, fun e he => ?_,
    fun r hr => ?_⟩
  · have h := get_tasks_user_scoped _ _ _ _ _ ht
    exact ⟨h, h ▸ hAB⟩
  · have h := get_reagents_user_scoped _ _ _ hr
    exact ⟨h, h ▸ hAB⟩
  · have h := upcomingTasksRows_user_scoped _ _ _ _ ht
    exact ⟨h, h ▸ hAB⟩
  · have h := recentExperimentRows_user_scoped _ _ _ he
    exact ⟨h, h ▸ hAB⟩
  · have h := lowReagentRows_user_scoped _ _ _ hr
    exact ⟨h, h ▸ hAB⟩

/-- Interleaving used by the claim C2 witness: users 1 and 2 alternate
creating tasks, reagents and an experiment. -/
def opsW : List CreateOp :=
  [CreateOp.task 1 "calibrate" "" 738886 "once",
   CreateOp.task 2 "order tips" "" 738886 "weekly",
   CreateOp.reagent 1 "NaCl" 5 "g" "shelf" "" "" none "" "2024-01-01",
   CreateOp.reagent 2 "Tris" 3 "g" "shelf" "" "" none "" "2024-01-01",
   CreateOp.experiment 2 "pcr" "amplify" "2024-01-02" "" "" "" "" ""]

/-- Claim C2 witness: in the concrete interleaving `opsW`, the task user 1
reads back through `get_tasks` is user 1's own row, not user 2's. -/
theorem list_queries_cross_user_isolation_witness :
    (⟨1, 1, "calibrate", "", 738886, "once", false⟩ : TaskRow).user_id = 1 ∧
    (⟨1, 1, "calibrate", "", 738886, "once", false⟩ : TaskRow).user_id ≠ 2 :=
  (list_queries_cross_user_isolation 1 2 opsW (by decide) (by decide)
    none false 738886).1
    ⟨1, 1, "calibrate", "", 738886, "once", false⟩ (by decide)

/-! ## Task acknowledgment handlers (claims C5, C6) -/

/-- Day number of a calendar date, counted from 1970-01-01 (the standard
civil-calendar day count; Python's `date.toordinal` is this value plus
719163).  Only evaluated here at concrete dates with positive year, where
truncating and flooring division agree. -/
def daysFromCivil (y m d : Int) : Int :=
  let y1 := if m ≤ 2 then y - 1 else y
  let era := (if 0 ≤ y1 then y1 else y1 - 399) / 400
  let yoe := y1 - era * 400
  let mp := (m + 9) % 12
  let doy := (153 * mp + 2) / 5 + d - 1
  let doe := yoe * 365 + yoe / 4 - yoe / 100 + doy
  era * 146097 + doe - 719468

/-- Embedding of the daily-tab acknowledge button of `lab_planner`
(proto.py:684): `UPDATE tasks SET completed = 1 WHERE id = ?`.  Note the
statement filters on id only: neither user_id nor frequency restricts it,
and it is offered for every row `get_tasks` lists. -/
def completeTask (db : DB) (tid : Nat) : DB :=
  { db with
      tasks := db.tasks.map (fun x =>
        if x.id == tid then { x with completed := true } else x) }

/-- Embedding of the recurring-tab acknowledge button of `lab_planner`
(proto.py:742): the new date is computed in Python from the displayed row
`t` — due date plus one week when its frequency is weekly, otherwise plus
30 days — and then `UPDATE tasks SET due_date = ? WHERE id = ?` stores it. -/
def ackRecurring (db : DB) (t : TaskRow) : DB :=
  { db with
      tasks := db.tasks.map (fun x =>
        if x.id == t.id then
          { x with due_date :=
              t.due_date + (if t.frequency == "weekly" then 7 else 30) }
        else x) }

/-- Claim C5: acknowledging a listed (hence not-completed) task through its
handler advances a weekly task by exactly 7 days with `completed` still
false, advances a monthly task by exactly 30 days with `completed` still
false, and marks a once task completed with its due date unchanged. -/
theorem ack_task_frequency_cases (db : DB) (t : TaskRow)
    (ht : t ∈ db.tasks) (hc : t.completed = false) :
    (t.frequency = "weekly" →
      (⟨t.id, t.user_id, t.title, t.description, t.due_date + 7,
        t.frequency, false⟩ : TaskRow) ∈ (ackRecurring db t).tasks) ∧
    (t.frequency = "monthly" →
      (⟨t.id, t.user_id, t.title, t.description, t.due_date + 30,
        t.frequency, false⟩ : TaskRow) ∈ (ackRecurring db t).tasks) ∧
    (t.frequency = "once" →
      (⟨t.id, t.user_id, t.title, t.description, t.due_date,
        t.frequency, true⟩ : TaskRow) ∈ (completeTask db t.id).tasks) := by
  obtain ⟨i, u, ti, de, du, fr, co⟩ := t
  simp only [TaskRow.completed] at hc
  subst hc
  refine ⟨fun hw => ?_, fun hm => ?_, fun ho => ?_⟩
  · rw [ackRecurring]
    refine List.mem_map.mpr ⟨_, ht, ?_⟩
    simp only [TaskRow.frequency, TaskRow.due_date, TaskRow.id] at hw ⊢
    simp [hw]
  · rw [ackRecurring]
    refine List.mem_map.mpr ⟨_, ht, ?_⟩
    simp only [TaskRow.frequency, TaskRow.due_date, TaskRow.id] at hm ⊢
    subst hm
    simp
  · rw [completeTask]
    exact List.mem_map.mpr ⟨_, ht, by simp⟩

/-- Store of the claim C5 witness: one weekly task due 2024-01-01, created
from the empty store. -/
def dbW5 : DB :=
  applyOps [CreateOp.task 1 "weekly report" "" (daysFromCivil 2024 1 1) "weekly"]
    emptyDB

/-- The row of `dbW5` as displayed by the recurring tab. -/
def taskW5 : TaskRow :=
  ⟨1, 1, "weekly report", "", daysFromCivil 2024 1 1, "weekly", false⟩

/-- Claim C5 witness: the weekly task due 2024-01-01 is due 2024-01-08
after one acknowledgment, still not completed. -/
theorem ack_task_frequency_cases_witness :
    (⟨1, 1, "weekly report", "", daysFromCivil 2024 1 8, "weekly", false⟩ :
      TaskRow) ∈ (ackRecurring dbW5 taskW5).tasks := by
  have h := (ack_task_frequency_cases dbW5 taskW5 (by decide) rfl).1 rfl
  have e : daysFromCivil 2024 1 1 + 7 = daysFromCivil 2024 1 8 := by decide
  simpa [taskW5, e] using h

/-- Store of the claim C6 counterexample: one weekly task, reachable from
the empty store by a single create action. -/
def dbW6 : DB :=
  applyOps [CreateOp.task 1 "water plants" "" 738886 "weekly"] emptyDB

/-- Claim C6 counterexample: the weekly task of `dbW6` is listed by the
daily tab (so its acknowledge button is offered), and pressing it runs
`completeTask`, which sets `completed = true` on a task whose frequency is
not once. -/
theorem daily_ack_completes_recurring_task :
    (⟨1, 1, "water plants", "", 738886, "weekly", false⟩ : TaskRow) ∈
      get_tasks dbW6 1 none false ∧
    (completeTask dbW6 1).tasks =
      [⟨1, 1, "water plants", "", 738886, "weekly", true⟩] ∧
    ("weekly" : String) ≠ "once" := by
  refine ⟨by decide, ?_, by decide⟩
  decide

/-- Claim C6 as amended: the recurring-tab acknowledgment never touches any
`completed` flag and changes nothing besides the due date of the row with
the acknowledged id; the completion of recurring tasks refuted by the
counterexample happens only through the daily-tab handler. -/
theorem recurring_ack_never_completes (db : DB) (t : TaskRow) :
    (ackRecurring db t).tasks.map TaskRow.completed =
      db.tasks.map TaskRow.completed ∧
    (ackRecurring db t).tasks.map
        (fun x => (x.id, x.user_id, x.title, x.description, x.frequency)) =
      db.tasks.map
        (fun x => (x.id, x.user_id, x.title, x.description, x.frequency)) := by
  constructor <;>
  · rw [ackRecurring]
    simp only [List.map_map]
    refine List.map_congr_left ?_
    intro x _
    by_cases h : x.id = t.id <;> simp [h]

/-! ## Reagent mutations (claims C1, C7, C8) -/

/-- Embedding of the inline data-editor UPDATE of `reagent_tracker`
(proto.py:983): `WHERE id=? AND user_id=?` — this path does scope the write
to the calling user. -/
def updateReagentInline (db : DB) (uid rid : Nat) (name : String) (q : ℚ)
    (unit location supplier catalog : String) (expiry : Option String)
    (notes : String) : DB :=
  { db with
      reagents := db.reagents.map (fun r =>
        if r.id == rid && r.user_id == uid then
          { r with
              name := name, quantity := q, unit := unit, location := location
              supplier := supplier, catalog_number := catalog
              expiry_date := expiry, notes := notes }
        else r) }

/-- Embedding of the update-form UPDATE of `reagent_tracker`
(proto.py:1097): `WHERE id=?` only — the statement binds no user_id, so it
applies to whichever row carries the id, whoever owns it. -/
def updateReagentForm (db : DB) (rid : Nat) (name : String) (q : ℚ)
    (unit location supplier catalog : String) (expiry : Option String)
    (notes : String) : DB :=
  { db with
      reagents := db.reagents.map (fun r =>
        if r.id == rid then
          { r with
              name := name, quantity := q, unit := unit, location := location
              supplier := supplier, catalog_number := catalog
              expiry_date := expiry, notes := notes }
        else r) }

/-- Embedding of the delete button of `reagent_tracker` (proto.py:1118):
`DELETE FROM reagents WHERE id=?` — again no user_id in the WHERE clause. -/
def deleteReagent (db : DB) (rid : Nat) : DB :=
  { db with reagents := db.reagents.filter (fun r => r.id != rid) }

/-- Embedding of the whole delete handler: after the DELETE commits, the
handler unconditionally reports success (proto.py:1123); `True` stands for
that success message — there is no NotFound branch at all. -/
def deleteReagentAction (db : DB) (rid : Nat) : DB × Bool :=
  (deleteReagent db rid, true)

/-- Two-user store: user 1 (alice) owns reagent 1; user 2 (bob) owns no
reagents.  The scenario of claims C1: bob's session issues the mutation. -/
def dbC1 : DB :=
  ⟨[⟨1, "alice", "pw1#", "", "", "t"⟩, ⟨2, "bob", "pw2#", "", "", "t"⟩],
   [], [⟨1, 1, "NaCl", 5, "g", "shelf", "", "", "2024-01-01", none, ""⟩],
   [], [], 3, 1, 2, 1, 1⟩

/-- Claim C1 fails on the code: the update-form and delete statements carry
no user_id at all (they are functions of the row id only), so executed from
user 2's session with the guessed id 1 they rewrite and remove the row
owned by user 1. -/
theorem update_delete_skip_ownership_check :
    (updateReagentForm dbC1 1 "hijacked" 0 "g" "x" "" "" none "").reagents =
      [⟨1, 1, "hijacked", 0, "g", "x", "", "", "2024-01-01", none, ""⟩] ∧
    (deleteReagent dbC1 1).reagents = [] := by
  constructor <;> rfl

/-- Single-user store with one reagent, used by claims C7 and C8. -/
def dbC7 : DB :=
  ⟨[⟨1, "alice", "pw1#", "", "", "t"⟩],
   [], [⟨1, 1, "NaCl", 5, "g", "shelf", "", "", "2024-01-01", none, ""⟩],
   [], [], 2, 1, 2, 1, 1⟩

/-- Claim C7 counterexample: deleting the absent id 99 leaves the store
unchanged, but the handler reports the success message (`true`), not
NotFound — the embedding of the handler has no NotFound outcome. -/
theorem delete_missing_id_reports_success :
    deleteReagentAction dbC7 99 = (dbC7, true) := by
  rfl

/-- Claim C7 as amended: after `deleteReagent id`, `get_reagents` never
returns a row with that id; deleting an id present in no row mutates
nothing — but the handler reports success rather than NotFound. -/
theorem delete_then_list_and_missing_noop (db : DB) (uid rid : Nat) :
    (∀ r ∈ get_reagents (deleteReagent db rid) uid, r.id ≠ rid) ∧
    ((∀ r ∈ db.reagents, r.id ≠ rid) →
      deleteReagentAction db rid = (db, true)) := by
  constructor
  · intro r hr
    rw [get_reagents, mem_sortBy, List.mem_filter] at hr
    have hmem := hr.1
    rw [deleteReagent] at hmem
    have := List.mem_filter.mp hmem
    simpa using this.2
  · intro hmiss
    have hfil : db.reagents.filter (fun r => r.id != rid) = db.reagents := by
      apply List.filter_eq_self.mpr
      intro r hr
      simpa using hmiss r hr
    simp [deleteReagentAction, deleteReagent, hfil]

/-- Store with two reagents of user 1 for the claim C7 witness. -/
def dbC7b : DB :=
  ⟨[⟨1, "alice", "pw1#", "", "", "t"⟩],
   [],
   [⟨1, 1, "NaCl", 5, "g", "shelf", "", "", "2024-01-01", none, ""⟩,
    ⟨2, 1, "Tris", 3, "g", "shelf", "", "", "2024-01-01", none, ""⟩],
   [], [], 2, 1, 3, 1, 1⟩

/-- Claim C7 witness: the surviving row listed after deleting id 1 from
`dbC7b` does not carry id 1, and deleting the absent id 99 from `dbC7` is a
no-op reported as success. -/
theorem delete_then_list_and_missing_noop_witness :
    (⟨2, 1, "Tris", 3, "g", "shelf", "", "", "2024-01-01", none, ""⟩ :
      ReagentRow).id ≠ 1 ∧
    deleteReagentAction dbC7 99 = (dbC7, true) :=
  ⟨(delete_then_list_and_missing_noop dbC7b 1 1).1 _ (by decide),
   (delete_then_list_and_missing_noop dbC7 1 99).2 (by decide)⟩

/-- Claim C8 counterexample: the update-form quantity input carries no
lower bound, so submitting -1 stores a negative quantity. -/
theorem form_update_allows_negative_quantity :
    (updateReagentForm dbC7 1 "NaCl" (-1) "g" "shelf" "" "" none "").reagents =
      [⟨1, 1, "NaCl", -1, "g", "shelf", "", "", "2024-01-01", none, ""⟩] ∧
    ((-1 : ℚ) < 0) := by
  refine ⟨rfl, by norm_num⟩

/-- Claim C8 as amended: the add form and the inline editor constrain their
quantity input to be at least 0 (`min_value=0`), so with every stored
quantity non-negative, both the create path and the inline-edit path leave
every quantity non-negative; the update-form path has no such constraint. -/
theorem quantity_nonneg_create_inline (db : DB) (uid rid : Nat)
    (name : String) (q : ℚ) (unit location supplier catalog : String)
    (expiry : Option String) (notes dadd : String)
    (hdb : ∀ r ∈ db.reagents, 0 ≤ r.quantity) (hq : 0 ≤ q) :
    (∀ r ∈ (addReagent db uid name q unit location supplier catalog expiry
        notes dadd).reagents, 0 ≤ r.quantity) ∧
    (∀ r ∈ (updateReagentInline db uid rid name q unit location supplier
        catalog expiry notes).reagents, 0 ≤ r.quantity) := by
  constructor
  · intro r hr
    rw [addReagent] at hr
    rcases List.mem_append.mp hr with h | h
    · exact hdb r h
    · rw [List.mem_singleton] at h
      subst h
      exact hq
  · intro r hr
    rw [updateReagentInline] at hr
    obtain ⟨x, hx, hfx⟩ := List.mem_map.mp hr
    subst hfx
    by_cases h : (x.id == rid && x.user_id == uid) = true <;> simp [h]
    · exact hq
    · exact hdb x hx

/-- Claim C8 witness: adding quantity 2 to `dbC7` keeps the new row
non-negative, and an inline edit of row 1 to quantity 2 keeps it
non-negative. -/
theorem quantity_nonneg_create_inline_witness :
    (0 : ℚ) ≤ (⟨2, 1, "Tris", 2, "g", "shelf", "", "", "2024-01-01", none,
      ""⟩ : ReagentRow).quantity ∧
    (0 : ℚ) ≤ (⟨1, 1, "NaCl", 2, "g", "shelf", "", "", "2024-01-01", none,
      ""⟩ : ReagentRow).quantity :=
  ⟨(quantity_nonneg_create_inline dbC7 1 1 "Tris" 2 "g" "shelf" "" "" none
      "" "2024-01-01" (by decide) (by norm_num)).1 _ (by decide),
   (quantity_nonneg_create_inline dbC7 1 1 "NaCl" 2 "g" "shelf" "" "" none
      "" "2024-01-01" (by decide) (by norm_num)).2 _ (by decide)⟩

/-! ## Dilution calculator (claim C9) -/

/-- Embedding of Python division, which raises ZeroDivisionError on a zero
divisor instead of returning a value. -/
def pyDiv (x y : ℚ) : Except Unit ℚ :=
  if y = 0 then Except.error () else Except.ok (x / y)

/-- Outcome rendered by the Calculate button of `dilution_calculator`
(proto.py:343): the computed stock volume, or the zero-stock error message
produced by the ZeroDivisionError handler. -/
inductive DilutionOutcome where
  | ok (v1 : ℚ)
  | zeroStockError
deriving DecidableEq

/-- Embedding of the Calculate button of `dilution_calculator`
(proto.py:343): `v1 = (c2 * v2) / c1` inside try, ZeroDivisionError
caught. -/
def dilution_calculator (c1 c2 v2 : ℚ) : DilutionOutcome :=
  match pyDiv (c2 * v2) c1 with
  | Except.ok v1 => DilutionOutcome.ok v1
  | Except.error _ => DilutionOutcome.zeroStockError

/-- Claim C9: for nonzero stock concentration the calculator returns
`c2 * v2 / c1`, and for zero stock concentration it reports the
zero-denominator error instead of producing a value. -/
theorem dilution_formula_and_zero_error (c1 c2 v2 : ℚ) :
    (c1 ≠ 0 →
      dilution_calculator c1 c2 v2 = DilutionOutcome.ok (c2 * v2 / c1)) ∧
    (c1 = 0 →
      dilution_calculator c1 c2 v2 = DilutionOutcome.zeroStockError) := by
  constructor <;> intro h <;> simp [dilution_calculator, pyDiv, h]

/-- Claim C9 witness: diluting from 2.0 to 0.5 at final volume 100.0 needs
25.0 of stock, and zero stock concentration reports the error. -/
theorem dilution_formula_and_zero_error_witness :
    dilution_calculator 2 (1 / 2) 100 = DilutionOutcome.ok 25 ∧
    dilution_calculator 0 1 10 = DilutionOutcome.zeroStockError := by
  constructor
  · have h := (dilution_formula_and_zero_error 2 (1 / 2) 100).1 (by norm_num)
    have e : (1 / 2 : ℚ) * 100 / 2 = 25 := by norm_num
    rw [e] at h
    exact h
  · exact (dilution_formula_and_zero_error 0 1 10).2 rfl

end Proto
